import Mathlib

/-
  Verification development for the dbimgtoolset image-sanitizing utility.
  The Python source (src/dbimgtoolset.py) is shallowly embedded below:
  pure helpers become Lean functions, subprocess and file-system effects
  become explicit oracle functions supplied through environment records,
  and Python exceptions become Except / Option values.
-/

namespace ImgTool

/-- Raw image bytes are modelled as lists of naturals. -/
abbrev Bytes := List Nat

/-- Python float values as far as this program observes them: finite
values are kept exact as rationals, and the non-finite values that the
builtin float conversion can produce are represented explicitly. -/
inductive PyFloat where
  | finite (q : ℚ)
  | inf
  | ninf
  | nan
deriving DecidableEq, Repr

/-- Scalar and container values that can appear in a metadata mapping. -/
inductive PyVal where
  | vstr (s : String)
  | vnum (f : PyFloat)
  | vtup (l : List PyVal)
  | vdict (l : List (String × PyVal))
  | vnone

/-- A metadata mapping, in insertion order, with unique keys. -/
abbrev Dict := List (String × PyVal)

/-- Python truthiness for the values above. -/
def pyTruthy : PyVal → Bool
  | .vstr s => s != ""
  | .vnum (.finite q) => q != 0
  | .vnum _ => true
  | .vtup l => !l.isEmpty
  | .vdict l => !l.isEmpty
  | .vnone => false

/-- Rendering of a value as by the Python str builtin.  The program only
depends on the result being empty or not (after stripping whitespace), so
the exact digits chosen for numbers and containers are not significant;
every non-string value renders to a non-empty string, as in Python. -/
def pyStr : PyVal → String
  | .vstr s => s
  | .vnum (.finite q) => toString q
  | .vnum .inf => "inf"
  | .vnum .ninf => "-inf"
  | .vnum .nan => "nan"
  | .vtup _ => "(tuple)"
  | .vdict _ => "(dict)"
  | .vnone => "None"

/-- Negation of a Python float. -/
def pyNeg : PyFloat → PyFloat
  | .finite q => .finite (-q)
  | .inf => .ninf
  | .ninf => .inf
  | .nan => .nan

/-- Addition of Python floats. -/
def pyAdd : PyFloat → PyFloat → PyFloat
  | .nan, _ => .nan
  | _, .nan => .nan
  | .finite p, .finite q => .finite (p + q)
  | .inf, .ninf => .nan
  | .ninf, .inf => .nan
  | .inf, _ => .inf
  | _, .inf => .inf
  | .ninf, _ => .ninf
  | _, .ninf => .ninf

/-- Division of Python floats.  Division by floating zero raises
ZeroDivisionError in Python, modelled as none. -/
def pyDiv : PyFloat → PyFloat → Option PyFloat
  | .finite p, .finite q => if q = 0 then none else some (.finite (p / q))
  | .inf, .finite q => if q = 0 then none else some (if q < 0 then .ninf else .inf)
  | .ninf, .finite q => if q = 0 then none else some (if q < 0 then .inf else .ninf)
  | .nan, .finite q => if q = 0 then none else some .nan
  | .nan, _ => some .nan
  | _, .nan => some .nan
  | .finite _, .inf => some (.finite 0)
  | .finite _, .ninf => some (.finite 0)
  | .inf, .inf => some .nan
  | .inf, .ninf => some .nan
  | .ninf, .inf => some .nan
  | .ninf, .ninf => some .nan

/-- Whether a Python float is finite. -/
def PyFloat.isFinite : PyFloat → Bool
  | .finite _ => true
  | _ => false

/-- Removes surrounding whitespace from a character list. -/
def trimChars (cs : List Char) : List Char :=
  ((cs.dropWhile Char.isWhitespace).reverse.dropWhile Char.isWhitespace).reverse

/-- The Python str strip method. -/
def pyStrip (s : String) : String := String.mk (trimChars s.data)

/-- Whether a string strips down to nothing. -/
def isBlank (s : String) : Bool := s.data.all Char.isWhitespace

/-- Splits a character list at every occurrence of a separator. -/
def splitOnChar (sep : Char) : List Char → List (List Char)
  | [] => [[]]
  | c :: rest =>
      let r := splitOnChar sep rest
      if c == sep then [] :: r
      else
        match r with
        | h :: t => (c :: h) :: t
        | [] => [[c]]

/-- Splits a leading sign character off a character list. -/
def stripSign : List Char → Bool × List Char
  | '-' :: rest => (true, rest)
  | '+' :: rest => (false, rest)
  | cs => (false, cs)

/-- Value of a list of decimal digit characters. -/
def digitsVal (cs : List Char) : Nat :=
  cs.foldl (fun a c => a * 10 + (c.toNat - 48)) 0

/-- Reads an optionally signed decimal exponent. -/
def parseSignedNat (t : List Char) : Option (Bool × Nat) :=
  let p := stripSign t
  if p.2 ≠ [] ∧ p.2.all Char.isDigit then some (p.1, digitsVal p.2) else none

/-- Reads an unsigned decimal mantissa, with an optional decimal point. -/
def parseMantissa (m : List Char) : Option ℚ :=
  match splitOnChar '.' m with
  | [a] => if a ≠ [] ∧ a.all Char.isDigit then some (digitsVal a) else none
  | [a, b] =>
      if (a ≠ [] ∨ b ≠ []) ∧ a.all Char.isDigit ∧ b.all Char.isDigit then
        some ((digitsVal a : ℚ) + (digitsVal b : ℚ) / (10 : ℚ) ^ b.length)
      else none
  | _ => none

/-- Conversion of a string by the Python float builtin: surrounding
whitespace is ignored, the tokens inf, infinity and nan are accepted in
any case with an optional sign, and otherwise a decimal literal with an
optional fraction and exponent is read.  Digit-group underscores are not
modelled.  Returns none where Python float raises ValueError. -/
def parsePyFloat (s : String) : Option PyFloat :=
  let t := (trimChars s.data).map Char.toLower
  let p := stripSign t
  if p.2 = ['i', 'n', 'f'] ∨ p.2 = ['i', 'n', 'f', 'i', 'n', 'i', 't', 'y'] then
    some (if p.1 then .ninf else .inf)
  else if p.2 = ['n', 'a', 'n'] then some .nan
  else
    match splitOnChar 'e' p.2 with
    | [m] => (parseMantissa m).map (fun q => .finite (if p.1 then -q else q))
    | [m, e] =>
        match parseMantissa m, parseSignedNat e with
        | some q, some ep =>
            let sc : ℚ := (10 : ℚ) ^ ep.2
            let q2 := if ep.1 then q / sc else q * sc
            some (.finite (if p.1 then -q2 else q2))
        | _, _ => none
    | _ => none

/-- Conversion of a metadata value by the Python float builtin: numbers
convert to themselves, strings are parsed, and every other value raises
TypeError, modelled as none. -/
def pyFloat : PyVal → Option PyFloat
  | .vnum f => some f
  | .vstr s => parsePyFloat s
  | _ => none

/-- Assignment into a mapping as by a Python dict: an existing key keeps
its position and is overwritten, a new key is appended at the end. -/
def setKey (d : Dict) (k : String) (v : PyVal) : Dict :=
  if (d.lookup k).isSome then
    d.map (fun p => if p.1 = k then (k, v) else p)
  else d ++ [(k, v)]

/-
  EXIF writing: selective strip (source lines 154 to 188).
-/

/-- Directive clearing the whole GPS block (source constant GPS_ARGS). -/
def GPS_ARGS : List String := ["-GPS:all="]

/-- Directives clearing device-identifying fields (source DEVICE_ARGS). -/
def DEVICE_ARGS : List String :=
  ["-Make=", "-Model=", "-SerialNumber=", "-BodySerialNumber=",
   "-CameraSerialNumber=", "-LensSerialNumber=", "-LensModel=", "-LensID=",
   "-Artist=", "-OwnerName="]

/-- Directives clearing timestamp fields (source DATETIME_ARGS). -/
def DATETIME_ARGS : List String :=
  ["-DateTimeOriginal=", "-CreateDate=", "-ModifyDate=", "-SubSecTime*=",
   "-OffsetTime*="]

/-- Embedding of build_strip_args: successive conditional appends keyed
on membership of the three known category names. -/
def build_strip_args (categories : List String) : List String :=
  let args : List String := []
  let args := if "gps" ∈ categories then args ++ GPS_ARGS else args
  let args := if "device" ∈ categories then args ++ DEVICE_ARGS else args
  let args := if "datetime" ∈ categories then args ++ DATETIME_ARGS else args
  args

/-- Observable result of one external-tool subprocess invocation: the
exit status, both text streams, and the contents of the designated
output file when that file exists afterwards. -/
structure ToolOutcome where
  exitcode : Int
  stdoutStr : String
  stderrStr : String
  outFile : Option Bytes

/-- The two failure kinds the metadata writer can surface, per the spec
naming: the tool is missing, or it ran and failed with diagnostics.  In
the source both are RuntimeError instances with distinct messages. -/
inductive WriteError where
  | toolUnavailable
  | toolExecutionError (diag : String)
deriving DecidableEq, Repr

/-- Message text carried by the RuntimeError raised on a failing exit
status: the stripped diagnostic stream, or a placeholder when empty. -/
def writeDiag (o : ToolOutcome) : String :=
  if isBlank o.stderrStr then "(none)" else pyStrip o.stderrStr

/-- Embedding of exiftool_write_from_bytes.  The parameter found mirrors
the global EXIFTOOL discovery result; run is the subprocess oracle,
applied to the input bytes, the directive list and the extension hint of
the temporary file.  Reading the input file back returns the bytes just
written, so the 0-or-1 exit path with no output file returns the input
unchanged. -/
def exiftool_write_from_bytes (found : Bool)
    (run : Bytes → List String → String → ToolOutcome)
    (data : Bytes) (args_list : List String) (hint_ext : String) :
    Except WriteError Bytes :=
  if !found then .error .toolUnavailable
  else
    let o := run data args_list hint_ext
    if ¬(o.exitcode = 0 ∨ o.exitcode = 1) then
      match o.outFile with
      | some b => .ok b
      | none => .error (.toolExecutionError (writeDiag o))
    else
      .ok (o.outFile.getD data)

/-
  EXIF reading (source lines 88 to 150).
-/

/-- Body of the try block of exiftool_json_from_bytes.  The parse oracle
stands for json.loads followed by list indexing: it yields the list of
JSON objects, or none where parsing or indexing raises.  An empty stdout
is replaced by a single empty object before parsing, as in the source. -/
def exiftool_json_body (run : Bytes → String → ToolOutcome)
    (parse : String → Option (List Dict)) (data : Bytes) (hint_ext : String) :
    Except String Dict :=
  let o := run data hint_ext
  if ¬(o.exitcode = 0 ∨ o.exitcode = 1) then
    .error (if !isBlank o.stderrStr then pyStrip o.stderrStr
            else if !isBlank o.stdoutStr then pyStrip o.stdoutStr
            else "exiftool exit")
  else
    match (if o.stdoutStr ≠ "" then parse o.stdoutStr else some [([] : Dict)]) with
    | none => .error "json parse error"
    | some [] => .ok []
    | some (d :: _) => .ok d

/-- Embedding of exiftool_json_from_bytes: a missing tool yields an empty
mapping at once, and any exception inside the body is caught and also
yields an empty mapping. -/
def exiftool_json_from_bytes (found : Bool) (run : Bytes → String → ToolOutcome)
    (parse : String → Option (List Dict)) (data : Bytes) (hint_ext : String) : Dict :=
  if !found then []
  else
    match exiftool_json_body run parse data hint_ext with
    | .ok d => d
    | .error _ => []

/-- Embedding of the local as_float helper inside _to_deg: a tuple is
read as a rational pair through its first two entries, anything else goes
through the float builtin; any raising path is none. -/
def as_float (v : PyVal) : Option PyFloat :=
  match v with
  | .vtup l =>
      match l.get? 0, l.get? 1 with
      | some a, some b =>
          match pyFloat a, pyFloat b with
          | some fa, some fb => pyDiv fa fb
          | _, _ => none
      | _, _ => none
  | _ => pyFloat v

/-- Embedding of _to_deg: unpacks a degree, minute, second triple and
combines them as d plus m over 60 plus s over 3600.  A three-character
string also unpacks, into its characters, as in Python; every other
shape, and every arithmetic failure, yields none. -/
def to_deg (v : PyVal) : Option PyFloat :=
  match v with
  | .vtup [d, m, s] =>
      match as_float d, as_float m, as_float s with
      | some fd, some fm, some fs =>
          match pyDiv fm (.finite 60), pyDiv fs (.finite 3600) with
          | some q1, some q2 => some (pyAdd (pyAdd fd q1) q2)
          | _, _ => none
      | _, _, _ => none
  | .vstr s =>
      match s.data with
      | [a, b, c] =>
          match as_float (.vstr (String.mk [a])), as_float (.vstr (String.mk [b])),
                as_float (.vstr (String.mk [c])) with
          | some fd, some fm, some fs =>
              match pyDiv fm (.finite 60), pyDiv fs (.finite 3600) with
              | some q1, some q2 => some (pyAdd (pyAdd fd q1) q2)
              | _, _ => none
          | _, _, _ => none
      | _ => none
  | _ => none

/-- Hemisphere test in the fallback reader: the stored reference value,
defaulted to dflt when falsy, is uppercased and compared with target.
Uppercasing a truthy non-string raises AttributeError, modelled none. -/
def refFlag (v : Option PyVal) (dflt target : String) : Option Bool :=
  let w := match v with
    | none => PyVal.vnone
    | some x => x
  let base := if pyTruthy w then w else .vstr dflt
  match base with
  | .vstr s => some (s.data.map Char.toUpper = target.data)
  | _ => none

/-- GPS post-processing of the fallback tag mapping, source lines 117 to
141.  The numeric-id-to-name table lookup over the GPS sub-dictionary is
modelled as the identity on already-named keys.  Returns none where the
Python block raises, which the caller turns into an empty mapping. -/
def gpsPostprocess (tagmap : Dict) : Option Dict :=
  match tagmap.lookup "GPSInfo" with
  | some (.vdict inv) =>
      if inv.isEmpty then some tagmap
      else
        let t1 := setKey tagmap "GPSLatitudeRef" ((inv.lookup "GPSLatitudeRef").getD .vnone)
        let t2 := setKey t1 "GPSLongitudeRef" ((inv.lookup "GPSLongitudeRef").getD .vnone)
        let t3 := setKey t2 "GPSLatitude" ((inv.lookup "GPSLatitude").getD .vnone)
        let t4 := setKey t3 "GPSLongitude" ((inv.lookup "GPSLongitude").getD .vnone)
        match to_deg ((t4.lookup "GPSLatitude").getD .vnone),
              to_deg ((t4.lookup "GPSLongitude").getD .vnone) with
        | some lat, some lon =>
            match refFlag (t4.lookup "GPSLatitudeRef") "N" "S",
                  refFlag (t4.lookup "GPSLongitudeRef") "E" "W" with
            | some sflag, some wflag =>
                let lat := if sflag then pyNeg lat else lat
                let lon := if wflag then pyNeg lon else lon
                some (setKey (setKey t4 "GPSLatitude" (.vnum lat))
                        "GPSLongitude" (.vnum lon))
            | _, _ => none
        | _, _ => some t4
  | _ => some tagmap

/-- Body of the try block of pil_exif_fallback.  The oracle openExif
stands for decoding the image and reading its EXIF block: an error is a
raising decode, ok none a missing or falsy EXIF block, and ok some the
tag mapping after name translation. -/
def pil_exif_body (openExif : Bytes → Except Unit (Option Dict)) (data : Bytes) :
    Except Unit Dict :=
  match openExif data with
  | .error _ => .error ()
  | .ok none => .ok []
  | .ok (some tagmap) =>
      match gpsPostprocess tagmap with
      | none => .error ()
      | some t => .ok t

/-- Embedding of pil_exif_fallback: every exception inside the body is
caught and yields an empty mapping. -/
def pil_exif_fallback (openExif : Bytes → Except Unit (Option Dict)) (data : Bytes) :
    Dict :=
  match pil_exif_body openExif data with
  | .ok d => d
  | .error _ => []

/-- Embedding of read_exif_from_bytes: the tool result when truthy, the
fallback reader otherwise. -/
def read_exif_from_bytes (found : Bool) (run : Bytes → String → ToolOutcome)
    (parse : String → Option (List Dict)) (openExif : Bytes → Except Unit (Option Dict))
    (data : Bytes) (hint_ext : String) : Dict :=
  let d := exiftool_json_from_bytes found run parse data hint_ext
  if !d.isEmpty then d else pil_exif_fallback openExif data

/-
  Summarizer (source lines 213 to 247).
-/

/-- Fixed-shape summary record of the raw metadata (source ExifSummary).
The GPS pair holds the converted float values. -/
structure ExifSummary where
  gps : Option (PyFloat × PyFloat)
  make : Option PyVal
  model : Option PyVal
  owner : Option PyVal
  software : Option PyVal
  captured : Option PyVal
  serials : List String

/-- Embedding of the local gv helper of summarize_exif: the first listed
key that is present with a value whose string form is non-blank. -/
def gv (ex : Dict) : List String → Option PyVal
  | [] => none
  | k :: ks =>
      match ex.lookup k with
      | some v => if !isBlank (pyStr v) then some v else gv ex ks
      | none => gv ex ks

/-- Whether the first list occurs as a contiguous run inside the second. -/
def containsSeq (needle : List Char) : List Char → Bool
  | [] => needle.isPrefixOf []
  | c :: rest => needle.isPrefixOf (c :: rest) || containsSeq needle rest

/-- Case-insensitive substring test for the word serial inside a key. -/
def hasSerialSub (k : String) : Bool :=
  containsSeq ['s', 'e', 'r', 'i', 'a', 'l'] (k.data.map Char.toLower)

/-- Short form of a key: the part after the last namespace colon. -/
def shortKey (k : String) : String :=
  match (splitOnChar ':' k.data).getLast? with
  | some cs => String.mk cs
  | none => k

/-- Embedding of summarize_exif.  The GPS pair is built only when both
probed values are present and the float builtin accepts both; the serial
list scans all entries in mapping order. -/
def summarize_exif (ex : Dict) : ExifSummary :=
  let lat := gv ex ["GPSLatitude", "EXIF:GPSLatitude"]
  let lon := gv ex ["GPSLongitude", "EXIF:GPSLongitude"]
  let gps : Option (PyFloat × PyFloat) :=
    match lat, lon with
    | some l, some r =>
        match pyFloat l, pyFloat r with
        | some a, some b => some (a, b)
        | _, _ => none
    | _, _ => none
  let make := gv ex ["Make", "EXIF:Make", "XMP:Make"]
  let model := gv ex ["Model", "EXIF:Model", "XMP:Model"]
  let owner := gv ex ["Artist", "EXIF:Artist", "XMP:Creator", "XMP:OwnerName",
                      "Microsoft:XPAuthor"]
  let software := gv ex ["Software", "EXIF:Software", "XMP:CreatorTool"]
  let captured := gv ex ["DateTimeOriginal", "EXIF:DateTimeOriginal", "CreateDate",
                         "EXIF:CreateDate"]
  let serials := ex.filterMap (fun p =>
    if hasSerialSub p.1 && !isBlank (pyStr p.2) then
      some (shortKey p.1 ++ ": " ++ pyStr p.2)
    else none)
  ⟨gps, make, model, owner, software, captured, serials⟩

/-
  Watermark (source lines 192 to 209).  The imaging library is embedded
  at the granularity the claims need: an image is a color mode together
  with pixel dimensions; drawing text changes pixel content only, which
  this abstraction does not track, and never the mode or the size.
-/

/-- An in-memory image: color mode and pixel dimensions. -/
structure PILImage where
  mode : String
  width : Nat
  height : Nat
deriving DecidableEq, Repr

/-- Mode conversion keeps the pixel dimensions. -/
def PILImage.convert (img : PILImage) (m : String) : PILImage :=
  { img with mode := m }

/-- Alpha compositing: both inputs must be RGBA images of equal size,
otherwise the library raises ValueError, modelled none; the result is a
fresh RGBA image of that size. -/
def alpha_composite (a b : PILImage) : Option PILImage :=
  if a.mode = "RGBA" ∧ b.mode = "RGBA" ∧ a.width = b.width ∧ a.height = b.height then
    some ⟨"RGBA", a.width, a.height⟩
  else none

/-- Embedding of add_watermark: convert to RGBA, build a transparent
overlay of the same size, draw the text onto the overlay (pixel content
only, so not tracked here), and composite.  Text and opacity shape only
pixel content and are therefore unused in this abstraction. -/
def add_watermark (img : PILImage) (_text : String) (_opacity : Int) :
    Option PILImage :=
  let base := img.convert "RGBA"
  let overlay : PILImage := ⟨"RGBA", base.width, base.height⟩
  alpha_composite base overlay

/-
  Application session state and the SAFE pipeline (source lines 251 to
  547, restricted to the fields and the action the claims concern).
-/

/-- The per-session single-image state: the source attributes
current_bytes, current_image, current_exif, current_ext, and the status
line text. -/
structure AppState where
  current_bytes : Option Bytes
  current_image : Option PILImage
  current_exif : Dict
  current_ext : String
  statusMsg : String

/-- The ambient collaborators of the application, resolved once at
process start in the source: the metadata tool discovery result and its
subprocess behaviour for writes and reads, the JSON decoding of the tool
output, the fallback EXIF extraction, image decoding from bytes, the
background-removal tool, and lossless PNG encoding. -/
structure Env where
  exiftool_found : Bool
  rembg_ok : Bool
  rembg : Bytes → Except String Bytes
  writeRun : Bytes → List String → String → ToolOutcome
  readRun : Bytes → String → ToolOutcome
  jsonParse : String → Option (List Dict)
  openExif : Bytes → Except Unit (Option Dict)
  decode : Bytes → Option PILImage
  encodePng : PILImage → Bytes

/-- Shorthand for the metadata re-extraction an Env induces. -/
def Env.readExif (env : Env) (data : Bytes) (hint_ext : String) : Dict :=
  read_exif_from_bytes env.exiftool_found env.readRun env.jsonParse env.openExif
    data hint_ext

/-- Embedding of App._set_from_bytes.  The byte buffer is assigned first;
only then is decoding attempted, and on a decoding failure the method
reports the error, clears the decoded image and the metadata mapping and
returns, leaving the new bytes in place.  On success the extension hint
replaces the current one when truthy, metadata is re-extracted from the
new bytes with that hint, and the status line is set when given. -/
def set_from_bytes (env : Env) (st : AppState) (data : Bytes)
    (ext_hint : Option String) (status : Option String) : AppState :=
  let stb := { st with current_bytes := some data }
  match env.decode data with
  | none => { stb with current_image := none, current_exif := [] }
  | some img =>
      let ext := match ext_hint with
        | some e => if e = "" then stb.current_ext else e
        | none => stb.current_ext
      { stb with
        current_image := some img
        current_ext := ext
        current_exif := env.readExif data ext
        statusMsg := match status with | some s2 => s2 | none => stb.statusMsg }

/-- The combined directive list the SAFE pipeline always uses. -/
def fullStripArgs : List String := build_strip_args ["gps", "device", "datetime"]

/-- Text of the RuntimeError a failing writer raises, as the except arm
of action_safe renders it. -/
def writeErrorText : WriteError → String
  | .toolUnavailable => "ExifTool not available"
  | .toolExecutionError d => d

/-- Body of the try block of the full SAFE pipeline, source lines 532 to
545: optional background removal switching the hint to png, optional
metadata strip with all three categories, then decoding, watermarking
and PNG re-encoding, ending in the _set_from_bytes call.  An error value
is an exception reaching the except arm. -/
def safe_full_pipeline (env : Env) (st : AppState) (cur : Bytes) :
    Except String AppState := do
  let bg : Bytes × String ←
    if env.rembg_ok then
      match env.rembg cur with
      | .ok d => pure (d, ".png")
      | .error e => throw e
    else pure (cur, st.current_ext)
  let data ←
    if env.exiftool_found then
      match exiftool_write_from_bytes env.exiftool_found env.writeRun bg.1
              fullStripArgs bg.2 with
      | .ok d => pure d
      | .error e => throw (writeErrorText e)
    else pure bg.1
  let img ←
    match env.decode data with
    | some im => pure im
    | none => throw "cannot identify image file"
  let wm ←
    match add_watermark img "SAFE" 160 with
    | some im => pure im
    | none => throw "images do not match"
  pure (set_from_bytes env st (env.encodePng wm) (some ".png")
    (some "SAFE copy created (full) and set as current."))

/-- Embedding of App.action_safe.  An empty or missing byte buffer is
falsy and returns at once.  In strip-only mode a missing tool shows a
warning and returns; a writer failure is caught, leaving the state
untouched; otherwise the result is installed through _set_from_bytes
with the current extension hint.  In full mode any exception escaping
the pipeline body is caught, leaving the state untouched. -/
def action_safe (env : Env) (strip_only : Bool) (st : AppState) : AppState :=
  match st.current_bytes with
  | none => st
  | some cur =>
    if cur.isEmpty then st
    else if strip_only then
      if !env.exiftool_found then st
      else
        match exiftool_write_from_bytes env.exiftool_found env.writeRun cur
                fullStripArgs st.current_ext with
        | .error _ => st
        | .ok data =>
            set_from_bytes env st data (some st.current_ext)
              (some "SAFE strip-only created and set as current.")
    else
      match safe_full_pipeline env st cur with
      | .error _ => st
      | .ok st2 => st2

/-
  Theorems for the claims.
-/

/-- C4: for every category list, in any order and possibly mixed with
unknown names, build_strip_args returns exactly the concatenation of the
fixed per-category directive lists of the categories present, in gps
then device then datetime order, so its length is the sum of the present
categories directive-list lengths.  The right-hand side depends only on
membership of the three known names, so input order and unknown names
are irrelevant. -/
theorem build_strip_args_concat (cats : List String) :
    build_strip_args cats =
      (if "gps" ∈ cats then GPS_ARGS else []) ++
        (if "device" ∈ cats then DEVICE_ARGS else []) ++
        (if "datetime" ∈ cats then DATETIME_ARGS else []) ∧
    (build_strip_args cats).length =
      (if "gps" ∈ cats then GPS_ARGS.length else 0) +
        (if "device" ∈ cats then DEVICE_ARGS.length else 0) +
        (if "datetime" ∈ cats then DATETIME_ARGS.length else 0) := by
  unfold build_strip_args
  refine ⟨?_, ?_⟩ <;>
    split <;> split <;> split <;>
      simp [GPS_ARGS, DEVICE_ARGS, DATETIME_ARGS]

/-- C5 counterexample: the device category maps to ten directive
strings, not nine as claimed. -/
theorem device_args_not_nine : DEVICE_ARGS.length = 10 ∧ ¬DEVICE_ARGS.length = 9 := by
  constructor <;> simp [DEVICE_ARGS]

/-- C5 amended: the device strip category maps to exactly ten fixed
directive strings, clearing make, model, the four serial-number fields,
the three lens fields, artist, and owner-name. -/
theorem device_args_ten :
    DEVICE_ARGS =
      ["-Make=", "-Model=", "-SerialNumber=", "-BodySerialNumber=",
       "-CameraSerialNumber=", "-LensSerialNumber=", "-LensModel=", "-LensID=",
       "-Artist=", "-OwnerName="] ∧
    DEVICE_ARGS.length = 10 :=
  ⟨rfl, rfl⟩

/-- Helper: the watermark stage always succeeds and returns an RGBA
image with the dimensions of its input. -/
theorem add_watermark_eval (img : PILImage) (text : String) (opacity : Int) :
    add_watermark img text opacity =
      some { mode := "RGBA", width := img.width, height := img.height } := by
  simp [add_watermark, PILImage.convert, alpha_composite]

/-- C10: for every decoded input image, add_watermark returns an RGBA
image whose width and height equal those of the input; the overlay is
composited in place and never resizes or crops. -/
theorem add_watermark_frame (img : PILImage) (text : String) (opacity : Int) :
    add_watermark img text opacity =
      some { mode := "RGBA", width := img.width, height := img.height } :=
  add_watermark_eval img text opacity

/-- C2: the metadata writer fails with toolUnavailable exactly when the
tool is missing; with the tool present, an exit status of 0 or 1 returns
the output file bytes when that file exists and the input bytes
otherwise, and any other exit status returns the output file bytes when
that file exists and otherwise fails with toolExecutionError carrying
the diagnostic stream. -/
theorem exiftool_write_contract (found : Bool)
    (run : Bytes → List String → String → ToolOutcome)
    (data : Bytes) (args : List String) (hint : String) :
    (exiftool_write_from_bytes found run data args hint = .error .toolUnavailable ↔
      found = false) ∧
    (found = true →
      ((run data args hint).exitcode = 0 ∨ (run data args hint).exitcode = 1) →
      exiftool_write_from_bytes found run data args hint =
        .ok ((run data args hint).outFile.getD data)) ∧
    (found = true →
      ¬((run data args hint).exitcode = 0 ∨ (run data args hint).exitcode = 1) →
      (∀ b, (run data args hint).outFile = some b →
        exiftool_write_from_bytes found run data args hint = .ok b) ∧
      ((run data args hint).outFile = none →
        exiftool_write_from_bytes found run data args hint =
          .error (.toolExecutionError (writeDiag (run data args hint))))) := by
  unfold exiftool_write_from_bytes
  cases found with
  | false => simp
  | true =>
      refine ⟨?_, ?_, ?_⟩
      · simp only [Bool.not_true, Bool.false_eq_true, if_false, iff_false]
        split
        · rename_i h
          cases hof : (run data args hint).outFile with
          | some b => simp [hof]
          | none => simp [hof]
        · simp
      · intro _ h
        simp [h]
      · intro _ h
        refine ⟨?_, ?_⟩
        · intro b hb
          simp [h, hb]
        · intro hb
          simp [h, hb]

/-- C2 witness: with the tool present, a zero exit status and an
existing output file, the writer returns the output file bytes. -/
theorem exiftool_write_contract_witness :
    exiftool_write_from_bytes true (fun _ _ _ => ⟨0, "", "", some [9]⟩) [1] [] ".jpg" =
      .ok [9] := by
  simpa using
    (exiftool_write_contract true (fun _ _ _ => ⟨0, "", "", some [9]⟩) [1] [] ".jpg").2.1
      rfl (Or.inl rfl)

/-- C3: the metadata read operation never raises: each enumerated
internal failure, a missing tool, a bad exit status, unparsable tool
output, a raising image decode, or malformed EXIF processing, yields an
empty mapping from its stage rather than an error, and the combined
reader always returns one of the two stage results, both of which are
plain mappings. -/
theorem read_exif_never_raises (found : Bool) (run : Bytes → String → ToolOutcome)
    (parse : String → Option (List Dict)) (openE : Bytes → Except Unit (Option Dict))
    (data : Bytes) (hint : String) :
    (found = false → exiftool_json_from_bytes found run parse data hint = []) ∧
    (¬((run data hint).exitcode = 0 ∨ (run data hint).exitcode = 1) →
      exiftool_json_from_bytes found run parse data hint = []) ∧
    ((run data hint).stdoutStr ≠ "" → parse (run data hint).stdoutStr = none →
      exiftool_json_from_bytes found run parse data hint = []) ∧
    (openE data = .error () → pil_exif_fallback openE data = []) ∧
    (∀ tm, openE data = .ok (some tm) → gpsPostprocess tm = none →
      pil_exif_fallback openE data = []) ∧
    (read_exif_from_bytes found run parse openE data hint =
        exiftool_json_from_bytes found run parse data hint ∨
      read_exif_from_bytes found run parse openE data hint =
        pil_exif_fallback openE data) := by
  refine ⟨?_, ?_, ?_, ?_, ?_, ?_⟩
  · intro h
    simp [exiftool_json_from_bytes, h]
  · intro h
    cases found with
    | false => simp [exiftool_json_from_bytes]
    | true => simp [exiftool_json_from_bytes, exiftool_json_body, h]
  · intro hout hparse
    cases found with
    | false => simp [exiftool_json_from_bytes]
    | true =>
        unfold exiftool_json_from_bytes exiftool_json_body
        simp only [Bool.not_true, Bool.false_eq_true, if_false]
        rw [if_pos hout, hparse]
        split
        · rename_i heq
          split at heq <;> simp_all
        · rfl
  · intro h
    simp [pil_exif_fallback, pil_exif_body, h]
  · intro tm h hgps
    simp [pil_exif_fallback, pil_exif_body, h, hgps]
  · unfold read_exif_from_bytes
    cases h : (exiftool_json_from_bytes found run parse data hint).isEmpty with
    | true => exact Or.inr (by simp [h])
    | false => exact Or.inl (by simp [h])

/-- C3 witness: with the tool missing and a raising fallback decode, the
tool stage, the fallback stage and the combined reader all return the
empty mapping. -/
theorem read_exif_never_raises_witness :
    exiftool_json_from_bytes false (fun _ _ => ⟨0, "", "", none⟩) (fun _ => none) [0] ".jpg"
        = [] ∧
    pil_exif_fallback (fun _ => .error ()) [0] = [] ∧
    read_exif_from_bytes false (fun _ _ => ⟨0, "", "", none⟩) (fun _ => none)
        (fun _ => .error ()) [0] ".jpg" = [] := by
  have h := read_exif_never_raises false (fun _ _ => ⟨0, "", "", none⟩) (fun _ => none)
    (fun _ => .error ()) [0] ".jpg"
  refine ⟨h.1 rfl, h.2.2.2.1 rfl, ?_⟩
  rcases h.2.2.2.2.2 with h6 | h6 <;> rw [h6]
  · exact h.1 rfl
  · exact h.2.2.2.1 rfl

/-- The degree, minute, second triple (40, 26, 46) as the fallback
reader receives it. -/
def dmsTriple : PyVal := .vtup [.vnum (.finite 40), .vnum (.finite 26), .vnum (.finite 46)]

/-- The decimal-degree value the conversion computes for that triple. -/
def qDeg : ℚ := 40 + 26 / 60 + 46 / 3600

/-- A fallback tag mapping whose GPS block carries the triple for both
coordinates with northern and eastern hemisphere references. -/
def gpsDictN : Dict :=
  [("GPSInfo", .vdict [("GPSLatitude", dmsTriple), ("GPSLatitudeRef", .vstr "N"),
                       ("GPSLongitude", dmsTriple), ("GPSLongitudeRef", .vstr "E")])]

/-- The same mapping with southern and western hemisphere references. -/
def gpsDictS : Dict :=
  [("GPSInfo", .vdict [("GPSLatitude", dmsTriple), ("GPSLatitudeRef", .vstr "S"),
                       ("GPSLongitude", dmsTriple), ("GPSLongitudeRef", .vstr "W")])]

/-- C9: the fallback reader converts the triple (40, 26, 46) to
40 plus 26 over 60 plus 46 over 3600 decimal degrees, which equals
145606 over 3600 and lies within one millionth of 40.446111; a northern
reference keeps the sign, while southern and western references negate
the stored latitude and longitude. -/
theorem pil_gps_conversion :
    to_deg dmsTriple = some (.finite qDeg) ∧
    qDeg = 145606 / 3600 ∧
    |qDeg - 40446111 / 1000000| < 1 / 1000000 ∧
    (gpsPostprocess gpsDictN).bind (fun d => d.lookup "GPSLatitude") =
      some (.vnum (.finite qDeg)) ∧
    (gpsPostprocess gpsDictS).bind (fun d => d.lookup "GPSLatitude") =
      some (.vnum (.finite (-qDeg))) ∧
    (gpsPostprocess gpsDictS).bind (fun d => d.lookup "GPSLongitude") =
      some (.vnum (.finite (-qDeg))) := by
  refine ⟨rfl, by norm_num [qDeg], ?_, rfl, rfl, rfl⟩
  rw [abs_sub_lt_iff]
  norm_num [qDeg]

/-- C8 counterexample: with a latitude raw value of the string inf and a
longitude of zero, both values convert under the float builtin, so the
summarizer populates the GPS pair even though the latitude is not a
finite number, refuting the only-when-finite part of the claim. -/
theorem summarize_gps_nonfinite :
    (summarize_exif [("GPSLatitude", .vstr "inf"),
                     ("GPSLongitude", .vnum (.finite 0))]).gps =
      some (.inf, .finite 0) ∧
    PyFloat.inf.isFinite = false := by
  exact ⟨by decide, rfl⟩

/-- C8 amended: the summarizer populates the GPS pair only when both the
latitude and the longitude raw values are accepted by the float builtin,
whose accepted values include non-finite ones such as inf and nan; if
either value is missing or fails to convert, the GPS field of the
summary is absent, never a partial pair. -/
theorem summarize_gps_atomic (ex : Dict) :
    (∀ a b, (summarize_exif ex).gps = some (a, b) →
      ∃ l r, gv ex ["GPSLatitude", "EXIF:GPSLatitude"] = some l ∧
        gv ex ["GPSLongitude", "EXIF:GPSLongitude"] = some r ∧
        pyFloat l = some a ∧ pyFloat r = some b) ∧
    ((gv ex ["GPSLatitude", "EXIF:GPSLatitude"] = none ∨
      gv ex ["GPSLongitude", "EXIF:GPSLongitude"] = none ∨
      (∃ l, gv ex ["GPSLatitude", "EXIF:GPSLatitude"] = some l ∧ pyFloat l = none) ∨
      (∃ r, gv ex ["GPSLongitude", "EXIF:GPSLongitude"] = some r ∧ pyFloat r = none)) →
      (summarize_exif ex).gps = none) := by
  unfold summarize_exif
  cases hlat : gv ex ["GPSLatitude", "EXIF:GPSLatitude"] with
  | none =>
      refine ⟨fun a b h => by simp_all, fun _ => by simp⟩
  | some l =>
      cases hlon : gv ex ["GPSLongitude", "EXIF:GPSLongitude"] with
      | none =>
          refine ⟨fun a b h => by simp_all, fun _ => by simp⟩
      | some r =>
          cases hfl : pyFloat l with
          | none =>
              refine ⟨fun a b h => by simp_all, fun _ => by simp [hfl]⟩
          | some a0 =>
              cases hfr : pyFloat r with
              | none =>
                  refine ⟨fun a b h => by simp_all, fun _ => by simp [hfl, hfr]⟩
              | some b0 =>
                  refine ⟨fun a b h => ?_, fun hbad => ?_⟩
                  · simp only [hfl, hfr] at h
                    simp only [Option.some.injEq, Prod.mk.injEq] at h
                    exact ⟨l, r, rfl, rfl, by rw [hfl, h.1], by rw [hfr, h.2]⟩
                  · rcases hbad with h | h | ⟨l2, hl2, hfl2⟩ | ⟨r2, hr2, hfr2⟩
                    · cases h
                    · cases h
                    · cases hl2
                      rw [hfl] at hfl2
                      cases hfl2
                    · cases hr2
                      rw [hfr] at hfr2
                      cases hfr2

/-- C8 amended witness: a latitude value that the float builtin rejects
leaves the GPS field of the summary absent. -/
theorem summarize_gps_atomic_witness :
    (summarize_exif [("GPSLatitude", .vstr "not a number")]).gps = none :=
  (summarize_gps_atomic [("GPSLatitude", .vstr "not a number")]).2
    (Or.inr (Or.inl rfl))

/-- C1 amended: when a SAFE pipeline stage raises, in full mode any
exception escaping the pipeline body, and in strip-only mode a missing
tool or a failing writer, the session state after the call equals the
state before it; but when the final result bytes fail to decode inside
_set_from_bytes, the byte buffer is replaced by the new bytes while the
decoded image is cleared and the metadata mapping is emptied, so the
prior state is not retained in that case. -/
theorem safe_abort_preserves_state (env : Env) (st : AppState) (cur : Bytes)
    (hcur : st.current_bytes = some cur) :
    (∀ e, safe_full_pipeline env st cur = .error e → action_safe env false st = st) ∧
    (env.exiftool_found = false → action_safe env true st = st) ∧
    (∀ e, exiftool_write_from_bytes env.exiftool_found env.writeRun cur fullStripArgs
        st.current_ext = .error e → action_safe env true st = st) ∧
    (∀ d eh s2, env.decode d = none →
      set_from_bytes env st d eh s2 =
        { st with current_bytes := some d, current_image := none, current_exif := [] }) := by
  refine ⟨?_, ?_, ?_, ?_⟩
  · intro e h
    simp only [action_safe, hcur]
    by_cases hemp : cur.isEmpty <;> simp [hemp, h]
  · intro hf
    simp only [action_safe, hcur]
    by_cases hemp : cur.isEmpty <;> simp [hemp, hf]
  · intro e h
    simp only [action_safe, hcur]
    by_cases hf : env.exiftool_found
    · rw [hf] at h
      by_cases hemp : cur.isEmpty <;> simp [hemp, hf, h]
    · by_cases hemp : cur.isEmpty <;> simp [hemp, hf]
  · intro d eh s2 h
    simp [set_from_bytes, h]

/-- Session state for the C1 counterexample: a loaded image of bytes
zero with a non-empty metadata mapping. -/
def st0 : AppState :=
  ⟨some [0], some ⟨"RGB", 4, 4⟩, [("Make", .vstr "X")], ".jpg", "Ready"⟩

/-- Environment for the C1 counterexample: the tool is present and its
write invocation exits with status 2 while leaving a salvageable output
file whose bytes one do not decode, the realistic best-effort salvage
path of the writer feeding garbage to _set_from_bytes. -/
def cexEnv : Env where
  exiftool_found := true
  rembg_ok := false
  rembg := fun _ => .error "rembg unavailable"
  writeRun := fun _ _ _ => ⟨2, "", "bad file format", some [1]⟩
  readRun := fun _ _ => ⟨2, "", "", none⟩
  jsonParse := fun _ => none
  openExif := fun _ => .error ()
  decode := fun b => if b = [0] then some ⟨"RGB", 4, 4⟩ else none
  encodePng := fun _ => [2]

/-- C1 counterexample: a failing strip-only SAFE run in which the final
result bytes fail to decode leaves the session with the new byte buffer,
no decoded image and an emptied metadata mapping, so the state after the
call differs from the state before it, refuting the claim. -/
theorem safe_decode_failure_mutates :
    cexEnv.decode [1] = none ∧
    (action_safe cexEnv true st0).current_bytes = some [1] ∧
    st0.current_bytes = some [0] ∧
    (action_safe cexEnv true st0).current_image = none ∧
    (action_safe cexEnv true st0).current_exif = [] ∧
    st0.current_exif ≠ [] ∧
    action_safe cexEnv true st0 ≠ st0 := by
  refine ⟨rfl, rfl, rfl, rfl, rfl, by simp [st0], ?_⟩
  intro h
  have h1 : (action_safe cexEnv true st0).current_bytes = some [1] := rfl
  rw [h] at h1
  exact absurd h1 (by simp [st0])

/-- C1 amended witness: a full SAFE run whose decode stage raises leaves
the state unchanged. -/
theorem safe_abort_preserves_state_witness :
    action_safe
      { exiftool_found := false, rembg_ok := false, rembg := fun _ => .error "x",
        writeRun := fun _ _ _ => ⟨0, "", "", none⟩, readRun := fun _ _ => ⟨0, "", "", none⟩,
        jsonParse := fun _ => none, openExif := fun _ => .error (),
        decode := fun _ => none, encodePng := fun _ => [] } false st0 = st0 :=
  (safe_abort_preserves_state _ st0 [0] rfl).1 "cannot identify image file" rfl

/-- C7: in the full SAFE pipeline the stages compose in the fixed order
background removal first, only when available and switching the working
hint to png, then the metadata strip with the combined three-category
directives, only when the tool is available, then the watermark stage
unconditionally last, whose RGBA result of unchanged dimensions is
re-encoded as PNG and installed through _set_from_bytes with a png
extension hint. -/
theorem safe_full_stage_order (env : Env) (st : AppState) (cur : Bytes)
    (hcur : st.current_bytes = some cur) (hne : ¬cur.isEmpty)
    (d1 : Bytes) (hbg : (if env.rembg_ok then env.rembg cur else .ok cur) = .ok d1)
    (d2 : Bytes)
    (hstrip : (if env.exiftool_found then
        exiftool_write_from_bytes env.exiftool_found env.writeRun d1 fullStripArgs
          (if env.rembg_ok then ".png" else st.current_ext)
      else .ok d1) = .ok d2)
    (img : PILImage) (hdec : env.decode d2 = some img) :
    action_safe env false st =
      set_from_bytes env st (env.encodePng ⟨"RGBA", img.width, img.height⟩) (some ".png")
        (some "SAFE copy created (full) and set as current.") := by
  have hpure : ∀ (a : AppState), (pure a : Except String AppState) = Except.ok a :=
    fun _ => rfl
  have hpipe : safe_full_pipeline env st cur =
      .ok (set_from_bytes env st (env.encodePng ⟨"RGBA", img.width, img.height⟩)
        (some ".png") (some "SAFE copy created (full) and set as current.")) := by
    unfold safe_full_pipeline
    cases hr : env.rembg_ok with
    | true =>
        rw [hr] at hbg hstrip
        simp only [if_true] at hbg hstrip
        cases hf : env.exiftool_found with
        | true =>
            rw [hf] at hstrip
            simp only [if_true] at hstrip
            simp [hbg, hf, hstrip, hdec, add_watermark_eval, hpure]
        | false =>
            rw [hf] at hstrip
            simp only [Bool.false_eq_true, if_false, Except.ok.injEq] at hstrip
            subst hstrip
            simp [hbg, hf, hdec, add_watermark_eval, hpure]
    | false =>
        rw [hr] at hbg hstrip
        simp only [Bool.false_eq_true, if_false, Except.ok.injEq] at hbg hstrip
        subst hbg
        cases hf : env.exiftool_found with
        | true =>
            rw [hf] at hstrip
            simp only [if_true] at hstrip
            simp [hf, hstrip, hdec, add_watermark_eval, hpure]
        | false =>
            rw [hf] at hstrip
            simp only [Bool.false_eq_true, if_false, Except.ok.injEq] at hstrip
            subst hstrip
            simp [hf, hdec, add_watermark_eval, hpure]
  simp only [action_safe, hcur]
  simp [hne, hpipe]

/-- Environment for the C7 witness: both optional stages available, the
background removal yielding bytes one, the strip yielding bytes two, and
PNG encoding yielding bytes three. -/
def wmEnv : Env where
  exiftool_found := true
  rembg_ok := true
  rembg := fun _ => .ok [1]
  writeRun := fun _ _ _ => ⟨0, "", "", some [2]⟩
  readRun := fun _ _ => ⟨0, "", "", none⟩
  jsonParse := fun _ => none
  openExif := fun _ => .ok none
  decode := fun b => if b = [2] ∨ b = [3] then some ⟨"RGB", 7, 5⟩ else none
  encodePng := fun _ => [3]

/-- C7 witness: with both optional stages available and succeeding, the
full SAFE run equals installing the PNG re-encoding of the watermarked
stripped background-removed image. -/
theorem safe_full_stage_order_witness :
    action_safe wmEnv false st0 =
      set_from_bytes wmEnv st0 [3] (some ".png")
        (some "SAFE copy created (full) and set as current.") := by
  exact safe_full_stage_order wmEnv st0 [0] rfl (by simp [st0]) [1] rfl [2] rfl
    ⟨"RGB", 7, 5⟩ rfl

/-- C6: a strip-only SAFE run on an image with no matching metadata
fields, expressed through the external-tool contract of the spec as the
no-change outcome, an exit status of 0 or 1 with no output file written,
succeeds as a byte-identical no-op; the re-extracted metadata of the
installed result contains none of the stripped field keys whenever
re-extraction of those bytes has none, and a second run on the result is
observably identical, returning the very same session state. -/
theorem safe_striponly_noop_idempotent
    (env : Env) (st : AppState) (cur : Bytes) (img : PILImage) (K : List String)
    (hcur : st.current_bytes = some cur) (hne : ¬cur.isEmpty)
    (hfound : env.exiftool_found = true)
    (hexit : (env.writeRun cur fullStripArgs st.current_ext).exitcode = 0 ∨
      (env.writeRun cur fullStripArgs st.current_ext).exitcode = 1)
    (hnofile : (env.writeRun cur fullStripArgs st.current_ext).outFile = none)
    (hdec : env.decode cur = some img)
    (hclean : ∀ k ∈ K, (env.readExif cur st.current_ext).lookup k = none) :
    (action_safe env true st).current_bytes = some cur ∧
    (∀ k ∈ K, ((action_safe env true st).current_exif).lookup k = none) ∧
    action_safe env true (action_safe env true st) = action_safe env true st := by
  have hw : exiftool_write_from_bytes true env.writeRun cur fullStripArgs
      st.current_ext = .ok cur := by
    unfold exiftool_write_from_bytes
    simp [hexit, hnofile]
  have hst1 : action_safe env true st =
      ⟨some cur, some img, env.readExif cur st.current_ext, st.current_ext,
        "SAFE strip-only created and set as current."⟩ := by
    simp only [action_safe, hcur]
    simp [hne, hfound, hw, set_from_bytes, hdec]
  have hst2 : action_safe env true
      (⟨some cur, some img, env.readExif cur st.current_ext, st.current_ext,
        "SAFE strip-only created and set as current."⟩ : AppState) =
      ⟨some cur, some img, env.readExif cur st.current_ext, st.current_ext,
        "SAFE strip-only created and set as current."⟩ := by
    simp only [action_safe]
    simp [hne, hfound, hw, set_from_bytes, hdec]
  refine ⟨by rw [hst1], fun k hk => by rw [hst1]; exact hclean k hk, ?_⟩
  rw [hst1, hst2]

/-- Environment for the C6 witness: the tool reports no change needed on
every write and the readers yield an empty mapping. -/
def noopEnv : Env where
  exiftool_found := true
  rembg_ok := false
  rembg := fun _ => .error "rembg unavailable"
  writeRun := fun _ _ _ => ⟨0, "", "", none⟩
  readRun := fun _ _ => ⟨0, "", "", none⟩
  jsonParse := fun _ => none
  openExif := fun _ => .ok none
  decode := fun b => if b = [0] then some ⟨"RGB", 4, 4⟩ else none
  encodePng := fun _ => [2]

/-- C6 witness: on a metadata-free image the strip-only run keeps the
bytes, its re-extracted mapping has no GPS latitude key, and a second
run returns the same state. -/
theorem safe_striponly_noop_idempotent_witness :
    (action_safe noopEnv true st0).current_bytes = some [0] ∧
    ((action_safe noopEnv true st0).current_exif).lookup "GPSLatitude" = none ∧
    action_safe noopEnv true (action_safe noopEnv true st0) =
      action_safe noopEnv true st0 := by
  have h := safe_striponly_noop_idempotent noopEnv st0 [0] ⟨"RGB", 4, 4⟩
    ["GPSLatitude"] rfl (by simp [st0]) rfl (Or.inl rfl) rfl rfl
    (fun k _ => rfl)
  exact ⟨h.1, h.2.1 "GPSLatitude" (by simp), h.2.2⟩

end ImgTool
